import Mathlib

/-!
Shallow embedding of the `schema` data-validation library
(`src/schema/__init__.py`, version 0.7.7) in Lean 4.

Values are Python values (`PyVal`), raw schemas are `SExpr` (literal,
type, `Or`, `And`, dict), dictionary schema keys carry a `KeyMark`
(plain, `Optional` with an optional default, `Forbidden`).  Validation
is `validateF`, a fuel-indexed structural translation of
`Schema.validate`; the fuel only bounds the nesting depth of the schema
tree, so `schemaValidate` runs it with fuel `sSize s + 1`, which always
suffices.  The mutable `match_count` field of `Or` objects is modelled
by a counter store (`Counters`) keyed by the `Or` node's identity `id`,
threaded through validation exactly where the Python object is mutated;
exceptions do not roll it back, matching Python semantics.

Modelling notes, each tied to the source:
* `Or`/`And` sub-schemas are re-wrapped with the combinator's own
  `error`/`ignore_extra_keys` arguments (`And._build_schema`); the claims
  only use combinators built with the defaults (`error=None`,
  `ignore_extra_keys=False`), so those are fixed here.
* Custom error templates and schema names are `None` throughout (no
  claim uses them), so every `e.format(data) if e else None` becomes
  `Option.none` in the `errors` chain and `_prepend_schema_name` is the
  identity.
* A generic `Hook` with a user handler is not representable; `Forbidden`
  (its only subclass in the library) is, with its default handler that
  raises `SchemaForbiddenKeyError` (`Forbidden._default_function`).
* `ExitStack` callbacks run in reverse registration order and a later
  exception replaces the in-flight one (`contextlib`), which `runResets`
  reproduces; registration happens for every sorted schema key with a
  `reset` attribute: `Or` keys, and `Optional` keys whose wrapped raw
  schema is an `Or` (`Optional.reset` delegates; for other raw schemas
  it is a no-op, behaviourally identical to not registering).
-/

/-- Python runtime values, restricted to the shapes the claims exercise:
`None`, booleans, integers, strings and (insertion-ordered) dicts. -/
inductive PyVal where
  | pnone
  | bool (b : Bool)
  | int (n : Int)
  | str (s : String)
  | dict (entries : List (PyVal × PyVal))

/-- The Python types that occur as type schemas in the claims. -/
inductive PyType where
  | intT
  | strT
  | boolT
  | dictT
  | objectT
deriving DecidableEq

mutual
/-- Structural size of a `PyVal`; strictly larger than dict-nesting depth. -/
def pySize : PyVal → Nat
  | .dict xs => 1 + pySizeEntries xs
  | _ => 1

def pySizeEntries : List (PyVal × PyVal) → Nat
  | [] => 0
  | (k, v) :: rest => pySize k + pySize v + pySizeEntries rest
end

/-- `d1.items() <= d2` half of Python dict equality: every entry of the first
list has a `eq`-equal key in the second with an `eq`-equal value. -/
def pyDictSub (eq : PyVal → PyVal → Bool) :
    List (PyVal × PyVal) → List (PyVal × PyVal) → Bool
  | [], _ => true
  | (k, v) :: rest, ys =>
      (ys.any fun kv => eq k kv.1 && eq v kv.2) && pyDictSub eq rest ys

/-- Python `==` on `PyVal`, fuel-indexed so that the definition is structural
(the fuel only bounds dict-nesting depth).  `True == 1` and `False == 0` hold
because `bool` is an `int` subclass; dicts compare order-insensitively by
keys and values. -/
def pyEqF : Nat → PyVal → PyVal → Bool
  | 0, _, _ => false
  | n + 1, a, b =>
    match a, b with
    | .pnone, .pnone => true
    | .bool x, .bool y => x == y
    | .bool x, .int m => if x then m == 1 else m == 0
    | .int m, .bool x => if x then m == 1 else m == 0
    | .int x, .int y => x == y
    | .str x, .str y => x == y
    | .dict xs, .dict ys => Nat.beq xs.length ys.length && pyDictSub (pyEqF n) xs ys
    | _, _ => false

/-- Python `==` on `PyVal` (`pyEqF` at always-sufficient fuel). -/
def pyEq (a b : PyVal) : Bool := pyEqF (pySize a + pySize b) a b

/-- Python `isinstance(data, t)`: `object` accepts everything and `bool`
is a subclass of `int`. -/
def pyIsinstance : PyVal → PyType → Bool
  | _, .objectT => true
  | .bool _, .boolT => true
  | .bool _, .intT => true
  | .int _, .intT => true
  | .str _, .strT => true
  | .dict _, .dictT => true
  | _, _ => false

/-- `t.__name__`. -/
def typeName : PyType → String
  | .intT => "int"
  | .strT => "str"
  | .boolT => "bool"
  | .dictT => "dict"
  | .objectT => "object"

mutual
/-- Python `repr` of a `PyVal` (strings are assumed to need no escaping,
which holds for every string in the claims). -/
def pyRepr : PyVal → String
  | .pnone => "None"
  | .bool true => "True"
  | .bool false => "False"
  | .int n => toString n
  | .str s => "'" ++ s ++ "'"
  | .dict xs => "\x7b" ++ String.intercalate ", " (pyReprEntries xs) ++ "\x7d"

def pyReprEntries : List (PyVal × PyVal) → List String
  | [] => []
  | (k, v) :: rest => (pyRepr k ++ ": " ++ pyRepr v) :: pyReprEntries rest
end

/-- Python `str` of a `PyVal`: strings print without quotes, everything
else as its `repr`. -/
def pyStr : PyVal → String
  | .str s => s
  | v => pyRepr v

/-- Marker carried by a dictionary schema key: a plain key, an
`Optional(...)` key (with its `default=` if one was given), or a
`Forbidden(...)` key. -/
inductive KeyMark where
  | plainM
  | optM (default : Option PyVal)
  | forbM

/-- Raw schemas: a comparable literal, a type, `Or(args)` (with its
`only_one` flag and an `id` standing for the Python object's identity,
which keys its mutable `match_count`), `And(args)`, and a dict schema
whose entries are (key marker, key schema, value schema). -/
inductive SExpr where
  | lit (v : PyVal)
  | typeS (t : PyType)
  | orS (id : Nat) (onlyOne : Bool) (args : List SExpr)
  | andS (args : List SExpr)
  | dictS (entries : List (KeyMark × SExpr × SExpr))

mutual
/-- Structural size of a schema; strictly larger than its nesting depth,
hence `sSize s + 1` is always enough fuel for `validateF`. -/
def sSize : SExpr → Nat
  | .lit _ => 1
  | .typeS _ => 1
  | .orS _ _ args => 1 + sSizeList args
  | .andS args => 1 + sSizeList args
  | .dictS entries => 1 + sSizeEntries entries

def sSizeList : List SExpr → Nat
  | [] => 0
  | a :: rest => sSize a + sSizeList rest

def sSizeEntries : List (KeyMark × SExpr × SExpr) → Nat
  | [] => 0
  | (_, ks, vs) :: rest => sSize ks + sSize vs + sSizeEntries rest
end

mutual
/-- Python `repr` of a raw schema: literals as their value repr, types as
`<class 'name'>`, combinators as `Or(...)`/`And(...)`
(`And.__repr__`), dict schemas as dict display with `Optional(...)` /
`Forbidden(...)` around marked keys (`Schema.__repr__`). -/
def sExprRepr : SExpr → String
  | .lit v => pyRepr v
  | .typeS t => "<class '" ++ typeName t ++ "'>"
  | .orS _ _ args => "Or(" ++ String.intercalate ", " (sExprReprList args) ++ ")"
  | .andS args => "And(" ++ String.intercalate ", " (sExprReprList args) ++ ")"
  | .dictS entries =>
      "\x7b" ++ String.intercalate ", " (sExprReprEntries entries) ++ "\x7d"

def sExprReprList : List SExpr → List String
  | [] => []
  | a :: rest => sExprRepr a :: sExprReprList rest

def sExprReprEntries : List (KeyMark × SExpr × SExpr) → List String
  | [] => []
  | (m, ks, vs) :: rest =>
      ((match m with
        | .plainM => sExprRepr ks
        | .optM _ => "Optional(" ++ sExprRepr ks ++ ")"
        | .forbM => "Forbidden(" ++ sExprRepr ks ++ ")") ++ ": " ++ sExprRepr vs)
        :: sExprReprEntries rest
end

/-- Python `repr` of a dictionary schema key together with its marker
(used in the missing-keys message, where `repr(k)` is applied to the key
object: the `Optional`/`Forbidden` wrapper prints around the raw schema). -/
def keyRepr : KeyMark × SExpr × SExpr → String
  | (.plainM, ks, _) => sExprRepr ks
  | (.optM _, ks, _) => "Optional(" ++ sExprRepr ks ++ ")"
  | (.forbM, ks, _) => "Forbidden(" ++ sExprRepr ks ++ ")"

/-- `_priority`: `COMPARABLE(0) < CALLABLE(1) < VALIDATOR(2) < TYPE(3) <
DICT(4) < ITERABLE(5)`.  Literals are comparable; `Or`/`And` expose a
`validate` attribute, hence `VALIDATOR`. -/
def priority : SExpr → Nat
  | .lit _ => 0
  | .orS _ _ _ => 2
  | .andS _ => 2
  | .typeS _ => 3
  | .dictS _ => 4

/-- `Schema._dict_key_priority`, scaled by 2 to stay in `Int`: the source
uses `p - 0.5` for `Hook` keys and `p + 0.5` for `Optional` keys, so
doubling preserves the ordering exactly. -/
def dictKeyPriority : KeyMark × SExpr × SExpr → Int
  | (.forbM, ks, _) => 2 * (priority ks : Int) - 1
  | (.optM _, ks, _) => 2 * (priority ks : Int) + 1
  | (.plainM, ks, _) => 2 * (priority ks : Int)

/-- Insert `x` before the first element `y` with `le x y`; the building
block of the stable sort below. -/
def insertLe (le : α → α → Bool) (x : α) : List α → List α
  | [] => [x]
  | y :: ys => if le x y then x :: y :: ys else y :: insertLe le x ys

/-- Stable sort matching Python's `sorted` (elements with equal keys keep
their relative order). -/
def sortByLe (le : α → α → Bool) (l : List α) : List α :=
  l.foldr (insertLe le) []

/-- String order used by `sorted(..., key=repr)`. -/
def strLe (a b : String) : Bool :=
  match compare a b with
  | .gt => false
  | _ => true

/-- Comparison of schema-dict entries by `_dict_key_priority`. -/
def entryLe (e1 e2 : KeyMark × SExpr × SExpr) : Bool :=
  decide (dictKeyPriority e1 ≤ dictKeyPriority e2)

/-- Sort key for data items: `isinstance(value[1], dict)`, i.e. items with
a dict value are evaluated last. -/
def itemRank (kv : PyVal × PyVal) : Nat :=
  match kv.2 with
  | .dict _ => 1
  | _ => 0

/-- Comparison of data items by `itemRank` (`False < True`). -/
def itemLe (kv1 kv2 : PyVal × PyVal) : Bool :=
  Nat.ble (itemRank kv1) (itemRank kv2)

/-- Which concrete `SchemaError` subclass was raised. -/
inductive ErrKind where
  | base
  | wrongKey
  | missingKey
  | onlyOneAllowed
  | forbiddenKey
  | unexpectedType
  | outOfFuel
deriving DecidableEq

/-- `SchemaError`: the two index-aligned cause chains (`autos` holds
system-generated messages, `errors` the user templates — always `None`
here since no claim supplies one) plus the raised subclass. -/
structure SchemaError where
  kind : ErrKind
  autos : List (Option String)
  errors : List (Option String)
deriving DecidableEq

/-- The store of `Or.match_count` fields, keyed by `Or` node identity;
a missing entry reads as `0` (the constructor sets `match_count = 0`). -/
abbrev Counters := List (Nat × Nat)

/-- Read an `Or`'s `match_count`. -/
def getCount (st : Counters) (id : Nat) : Nat :=
  (List.lookup id st).getD 0

/-- Write an `Or`'s `match_count`. -/
def setCount (st : Counters) (id : Nat) (n : Nat) : Counters :=
  (id, n) :: st

/-- `self.match_count += 1`. -/
def incrCount (st : Counters) (id : Nat) : Counters :=
  setCount st id (getCount st id + 1)

/-- `new[nkey] = nvalue` on an insertion-ordered dict: update in place if
an `==`-equal key exists, else append. -/
def dictInsert (xs : List (PyVal × PyVal)) (k v : PyVal) : List (PyVal × PyVal) :=
  if xs.any fun kv => pyEq kv.1 k then
    xs.map fun kv => if pyEq kv.1 k then (kv.1, v) else kv
  else xs ++ [(k, v)]

/-- `"s" if len(seq) > 1 else ""` (`_plural_s`). -/
def pluralS (n : Nat) : String :=
  if 1 < n then "s" else ""

/-- `Or.validate`'s loop: try each alternative against the original data;
on success bump `match_count` and (unless `only_one` saw a second match,
which `break`s to the final raise) return; on failure append the failed
alternative's `autos`/`errors` and go on; when the alternatives are
exhausted raise the summary error over everything accumulated. -/
def orRun (valF : SExpr → PyVal → Counters → Except SchemaError PyVal × Counters)
    (rep : String) (id : Nat) (oo : Bool) (d : PyVal) :
    List SExpr → List (Option String) → List (Option String) → Counters →
    Except SchemaError PyVal × Counters
  | [], autos, errors, st =>
      (Except.error ⟨.base, some (rep ++ " did not validate " ++ pyRepr d) :: autos,
        Option.none :: errors⟩, st)
  | a :: rest, autos, errors, st =>
      match valF a d st with
      | (Except.ok v, st1) =>
          let st2 := incrCount st1 id
          if oo && Nat.blt 1 (getCount st2 id) then
            (Except.error ⟨.base, some (rep ++ " did not validate " ++ pyRepr d) :: autos,
              Option.none :: errors⟩, st2)
          else (Except.ok v, st2)
      | (Except.error e, st1) =>
          orRun valF rep id oo d rest (autos ++ e.autos) (errors ++ e.errors) st1

/-- `And.validate`: thread the data left to right through the
sub-schemas, failing fast. -/
def andRun (valF : SExpr → PyVal → Counters → Except SchemaError PyVal × Counters) :
    List SExpr → PyVal → Counters → Except SchemaError PyVal × Counters
  | [], d, st => (Except.ok d, st)
  | a :: rest, d, st =>
      match valF a d st with
      | (Except.ok v, st1) => andRun valF rest v st1
      | (Except.error e, st1) => (Except.error e, st1)

/-- Outcome of scanning the sorted schema keys for one data item. -/
inductive TryOut where
  | fatal (e : SchemaError)
  | matched (idx : Nat) (nkey nvalue : PyVal)
  | unmatched

/-- The inner loop of dict validation for one `(key, value)` data item:
scan the priority-sorted schema keys; a key schema that rejects the data
key is skipped; for a `Forbidden` key a value match raises the
forbidden-key error and a value mismatch skips to the next candidate
("reverse" semantics); for an ordinary key a value failure is fatal,
wrapped with the `Key '<k>' error:` frame, and a value success records
the match and stops the scan. -/
def tryKeys (valF : Bool → SExpr → PyVal → Counters → Except SchemaError PyVal × Counters)
    (i : Bool) (dataFull : PyVal) (key value : PyVal) :
    Nat → List (KeyMark × SExpr × SExpr) → Counters → TryOut × Counters
  | _, [], st => (.unmatched, st)
  | idx, (m, ks, vs) :: rest, st =>
      match valF false ks key st with
      | (Except.error _, st1) => tryKeys valF i dataFull key value (idx + 1) rest st1
      | (Except.ok nkey, st1) =>
          match m with
          | .forbM =>
              match valF false vs value st1 with
              | (Except.error _, st2) => tryKeys valF i dataFull key value (idx + 1) rest st2
              | (Except.ok _, st2) =>
                  (.fatal ⟨.forbiddenKey,
                    [some ("Forbidden key encountered: " ++ pyRepr nkey ++ " in "
                      ++ pyRepr dataFull)], [Option.none]⟩, st2)
          | _ =>
              match valF i vs value st1 with
              | (Except.error x, st2) =>
                  (.fatal ⟨.base, some ("Key '" ++ pyStr nkey ++ "' error:") :: x.autos,
                    Option.none :: x.errors⟩, st2)
              | (Except.ok nvalue, st2) => (.matched idx nkey nvalue, st2)

/-- The outer loop of dict validation: process the (dict-valued-last)
sorted data items, building the result dict `new` and the coverage set
(as indices into the sorted schema keys); a fatal outcome aborts. -/
def processItems
    (valF : Bool → SExpr → PyVal → Counters → Except SchemaError PyVal × Counters)
    (i : Bool) (dataFull : PyVal) (entries : List (KeyMark × SExpr × SExpr)) :
    List (PyVal × PyVal) → List (PyVal × PyVal) → List Nat → Counters →
    Except SchemaError (List (PyVal × PyVal) × List Nat) × Counters
  | [], new, cov, st => (Except.ok (new, cov), st)
  | (k, v) :: items, new, cov, st =>
      match tryKeys valF i dataFull k v 0 entries st with
      | (.fatal e, st1) => (Except.error e, st1)
      | (.matched idx nk nv, st1) =>
          processItems valF i dataFull entries items (dictInsert new nk nv)
            (cov ++ [idx]) st1
      | (.unmatched, st1) => processItems valF i dataFull entries items new cov st1

/-- The reset obligation a schema key registers on the `ExitStack`, if
any: `Or` keys directly, `Optional` keys through `Optional.reset`'s
delegation to a wrapped `Or`.  Carries the `Or`'s id, `only_one` flag
and repr (for the only-one error message). -/
def keyResetObl : KeyMark × SExpr × SExpr → Option (Nat × Bool × String)
  | (.plainM, .orS id oo args, _) => some (id, oo, sExprRepr (.orS id oo args))
  | (.optM _, .orS id oo args, _) => some (id, oo, sExprRepr (.orS id oo args))
  | _ => Option.none

/-- Run the registered `Or.reset` callbacks, in the run order given (the
caller passes the reverse of registration order, as `ExitStack` does).
Each reset zeroes its counter and, if `only_one` was set and more than
one alternative had matched, raises `SchemaOnlyOneAllowedError`; every
callback runs regardless, and a later-raised exception replaces the
earlier one, exactly as `ExitStack.__exit__` propagates them. -/
def runResets : List (Nat × Bool × String) → Counters → Option SchemaError × Counters
  | [], st => (Option.none, st)
  | (id, oo, rep) :: rest, st =>
      let c := getCount st id
      let st1 := setCount st id 0
      let (eRest, st2) := runResets rest st1
      (match eRest with
       | some e => some e
       | Option.none =>
           if oo && Nat.blt 1 c then
             some ⟨.onlyOneAllowed,
               [some ("There are multiple keys present from the " ++ rep ++ " condition")],
               [Option.none]⟩
           else Option.none, st2)

/-- `any(isinstance(s, t) for t in [Optional, Hook])`: schema keys that
do not have to be covered. -/
def isOptionalType : KeyMark → Bool
  | .plainM => false
  | .optM _ => true
  | .forbM => true

/-- The required schema keys (those not `Optional`/`Hook`-marked), as
(index, entry) pairs over the sorted key list. -/
def requiredPairs (sortedE : List (KeyMark × SExpr × SExpr)) :
    List (Nat × (KeyMark × SExpr × SExpr)) :=
  sortedE.enum.filter fun p => !isOptionalType p.2.1

/-- `required - coverage`: the required keys never matched. -/
def missingOf (sortedE : List (KeyMark × SExpr × SExpr)) (cov : List Nat) :
    List (Nat × (KeyMark × SExpr × SExpr)) :=
  (requiredPairs sortedE).filter fun p => !cov.contains p.1

/-- `"Missing key%s: %s"` over the missing keys, repr-sorted. -/
def missingMsg (ms : List (Nat × (KeyMark × SExpr × SExpr))) : String :=
  "Missing key" ++ pluralS ms.length ++ ": "
    ++ String.intercalate ", " (sortByLe strLe (ms.map fun p => keyRepr p.2))

/-- `set(data.keys()) - set(new.keys())`: the data keys never matched by
any schema key. -/
def wrongKeysOf (xs new : List (PyVal × PyVal)) : List PyVal :=
  (xs.map Prod.fst).filter fun k => !(new.any fun kv => pyEq kv.1 k)

/-- `"Wrong key%s %s in %r"` over the unmatched data keys, repr-sorted. -/
def wrongMsg (dataFull : PyVal) (xs new : List (PyVal × PyVal)) : String :=
  "Wrong key" ++ pluralS (wrongKeysOf xs new).length ++ " "
    ++ String.intercalate ", " (sortByLe strLe ((wrongKeysOf xs new).map pyRepr))
    ++ " in " ++ pyRepr dataFull

/-- Inject `key -> default` for every `Optional` key that carries a
default and was not covered.  The stored key identity is
`str(self._schema)` (`Optional.__init__`), and the raw schema of a
defaulted `Optional` is always `COMPARABLE` (a literal) — the
constructor raises `TypeError` otherwise — so only literal key schemas
inject. -/
def applyDefaults : List (Nat × (KeyMark × SExpr × SExpr)) → List Nat →
    List (PyVal × PyVal) → List (PyVal × PyVal)
  | [], _, new => new
  | (idx, (m, ks, _)) :: rest, cov, new =>
      match m, ks with
      | .optM (some dv), .lit v =>
          if cov.contains idx then applyDefaults rest cov new
          else applyDefaults rest cov (dictInsert new (.str (pyStr v)) dv)
      | _, _ => applyDefaults rest cov new

/-- The phase of dict validation after the item loop and the resets:
missing-required-keys check, then (unless `ignore_extra_keys`) the
wrong-keys check comparing result and input sizes, then default
injection. -/
def finishDict (i : Bool) (dataFull : PyVal) (xs : List (PyVal × PyVal))
    (sortedE : List (KeyMark × SExpr × SExpr)) (new : List (PyVal × PyVal))
    (cov : List Nat) : Except SchemaError PyVal :=
  match missingOf sortedE cov with
  | [] =>
      if !i && !(new.length == xs.length) then
        Except.error ⟨.wrongKey, [some (wrongMsg dataFull xs new)], [Option.none]⟩
      else
        Except.ok (.dict (applyDefaults sortedE.enum cov new))
  | ms => Except.error ⟨.missingKey, [some (missingMsg ms)], [Option.none]⟩

/-- `Schema.validate`, the polymorphic dispatcher, with fuel bounding the
schema nesting depth (`outOfFuel` is unreachable from `schemaValidate`).
Dispatch follows `_priority`: literals compare with `==`; types check
`isinstance` minus the bool-as-int carve-out; `Or`/`And` delegate to the
combinator's own `validate` and rewrap a failure with a `None` context
frame on both chains (the `VALIDATOR` branch); dict schemas run the full
dictionary algorithm: type-check, priority-sort the schema keys,
register resets, process (dict-valued-last) items, run resets on every
exit path, then required/extra checks and default injection. -/
def validateF : Nat → Bool → SExpr → PyVal → Counters →
    Except SchemaError PyVal × Counters
  | 0, _, _, _, st => (Except.error ⟨.outOfFuel, [], []⟩, st)
  | n + 1, i, s, d, st =>
    match s with
    | .lit v =>
        if pyEq v d then (Except.ok d, st)
        else
          (Except.error ⟨.base, [some (pyRepr v ++ " does not match " ++ pyRepr d)],
            [Option.none]⟩, st)
    | .typeS t =>
        if pyIsinstance d t && !(pyIsinstance d .boolT && t == .intT) then
          (Except.ok d, st)
        else
          (Except.error ⟨.unexpectedType,
            [some (pyRepr d ++ " should be instance of '" ++ typeName t ++ "'")],
            [Option.none]⟩, st)
    | .orS id oo args =>
        match orRun (fun s2 d2 st2 => validateF n false s2 d2 st2)
            (sExprRepr (.orS id oo args)) id oo d args [] [] st with
        | (Except.ok v, st1) => (Except.ok v, st1)
        | (Except.error e, st1) =>
            (Except.error ⟨.base, Option.none :: e.autos, Option.none :: e.errors⟩, st1)
    | .andS args =>
        match andRun (fun s2 d2 st2 => validateF n false s2 d2 st2) args d st with
        | (Except.ok v, st1) => (Except.ok v, st1)
        | (Except.error e, st1) =>
            (Except.error ⟨.base, Option.none :: e.autos, Option.none :: e.errors⟩, st1)
    | .dictS entries =>
        match d with
        | .dict xs =>
            let sortedE := sortByLe entryLe entries
            let obls := sortedE.filterMap keyResetObl
            let items := sortByLe itemLe xs
            let (bodyRes, st1) :=
              processItems (fun i2 s2 d2 st2 => validateF n i2 s2 d2 st2)
                i d sortedE items [] [] st
            let (eR, st2) := runResets obls.reverse st1
            match eR with
            | some e2 => (Except.error e2, st2)
            | Option.none =>
                match bodyRes with
                | Except.error e => (Except.error e, st2)
                | Except.ok (new, cov) => (finishDict i d xs sortedE new cov, st2)
        | _ =>
            (Except.error ⟨.unexpectedType,
              [some (pyRepr d ++ " should be instance of 'dict'")], [Option.none]⟩, st)

/-- `Schema(s, ignore_extra_keys=i).validate(d)` from a fresh state:
`validateF` at always-sufficient fuel. -/
def schemaValidate (i : Bool) (s : SExpr) (d : PyVal) :
    Except SchemaError PyVal × Counters :=
  validateF (sSize s + 1) i s d []

/-- `Or(*args, only_one=oo).validate(d)` called directly on the `Or`
object (no enclosing `Schema` wrapper, so no extra `None` frame). -/
def orValidate (id : Nat) (oo : Bool) (args : List SExpr) (d : PyVal)
    (st : Counters) : Except SchemaError PyVal × Counters :=
  orRun (fun s2 d2 st2 => validateF (sSizeList args + 1) false s2 d2 st2)
    (sExprRepr (.orS id oo args)) id oo d args [] [] st

/-- Decidable record of "every alternative failed": threads the state
through the alternatives in order and, when each fails, returns their
concatenated `autos`/`errors` chains and the final state. -/
def allFail (valF : SExpr → PyVal → Counters → Except SchemaError PyVal × Counters) :
    List SExpr → PyVal → Counters →
    Option (List (Option String) × List (Option String) × Counters)
  | [], _, st => some ([], [], st)
  | a :: rest, d, st =>
      match valF a d st with
      | (Except.ok _, _) => Option.none
      | (Except.error e, st1) =>
          match allFail valF rest d st1 with
          | some (as2, es2, st2) => some (e.autos ++ as2, e.errors ++ es2, st2)
          | Option.none => Option.none

/-! ## Helper lemmas about the counter store and the reset callbacks -/

theorem getCount_setCount_self (st : Counters) (id n : Nat) :
    getCount (setCount st id n) id = n := by
  simp [getCount, setCount, List.lookup]

theorem getCount_setCount_ne (st : Counters) (id id2 n : Nat) (h : id ≠ id2) :
    getCount (setCount st id n) id2 = getCount st id2 := by
  have hb : (id2 == id) = false := beq_eq_false_iff_ne.mpr (Ne.symm h)
  simp [getCount, setCount, List.lookup, hb]

theorem runResets_preserve (id : Nat) :
    ∀ (l : List (Nat × Bool × String)) (st : Counters),
      (∀ p ∈ l, p.1 ≠ id) → getCount (runResets l st).2 id = getCount st id := by
  intro l
  induction l with
  | nil => intro st _; rfl
  | cons a rest ih =>
      intro st h
      obtain ⟨aid, aoo, arep⟩ := a
      simp only [runResets]
      rcases hR : runResets rest (setCount st aid 0) with ⟨eRest, st2⟩
      have h2 : getCount (runResets rest (setCount st aid 0)).2 id
          = getCount (setCount st aid 0) id :=
        ih (setCount st aid 0) (fun p hp => h p (List.mem_cons_of_mem _ hp))
      rw [hR] at h2
      have haid : aid ≠ id := h (aid, aoo, arep) (List.mem_cons_self _ _)
      simp only [hR]
      simp [getCount_setCount_ne st aid id 0 haid, h2]

theorem runResets_zero (id : Nat) :
    ∀ (l : List (Nat × Bool × String)) (st : Counters),
      (∃ p ∈ l, p.1 = id) → getCount (runResets l st).2 id = 0 := by
  intro l
  induction l with
  | nil => intro st h; simp at h
  | cons a rest ih =>
      intro st h
      obtain ⟨aid, aoo, arep⟩ := a
      simp only [runResets]
      rcases hR : runResets rest (setCount st aid 0) with ⟨eRest, st2⟩
      simp only [hR]
      by_cases hrest : ∃ p ∈ rest, p.1 = id
      · have hz := ih (setCount st aid 0) hrest
        rw [hR] at hz
        exact hz
      · have haid : aid = id := by
          rcases h with ⟨p, hp, hpid⟩
          rcases List.mem_cons.mp hp with hph | hpr
          · rw [hph] at hpid; exact hpid
          · exact absurd ⟨p, hpr, hpid⟩ hrest
        have hpres : ∀ p ∈ rest, p.1 ≠ id := by
          intro p hp
          exact fun hpid => hrest ⟨p, hp, hpid⟩
        have hpr := runResets_preserve id rest (setCount st aid 0) hpres
        rw [hR] at hpr
        show getCount st2 id = 0
        rw [hpr, haid, getCount_setCount_self]

/-! ## Claim theorems -/

/-- Claim C3 (confirmed): a `Forbidden` dictionary key fires only when both the
key schema and the value schema match.  `Schema({Forbidden("b"): object})`
rejects `{"b": "x"}` with the forbidden-key error, while
`Schema({Forbidden("b"): int})` rejects the same data with a wrong-key error
(the value did not match `int`, so the `Forbidden` entry did not fire and
`"b"` was left unmatched), not a forbidden-key error. -/
theorem c3_forbidden_fires_only_on_value_match :
    schemaValidate false (.dictS [(.forbM, .lit (.str "b"), .typeS .objectT)])
        (.dict [(.str "b", .str "x")])
      = (Except.error ⟨.forbiddenKey,
          [some "Forbidden key encountered: 'b' in \x7b'b': 'x'\x7d"],
          [Option.none]⟩, [])
    ∧ schemaValidate false (.dictS [(.forbM, .lit (.str "b"), .typeS .intT)])
        (.dict [(.str "b", .str "x")])
      = (Except.error ⟨.wrongKey,
          [some "Wrong key 'b' in \x7b'b': 'x'\x7d"],
          [Option.none]⟩, []) :=
  ⟨rfl, rfl⟩

/-- Claim C4 (confirmed): with `Or("x", "y", only_one=True)` as a dictionary
key schema, a dict containing both `"x"` and `"y"` fails with the dedicated
`SchemaOnlyOneAllowedError` (the kind produced only by `reset()` at the end of
the dictionary pass, not by the per-key match), the `Or`'s `match_count` is
back to `0` afterwards, and a dict with exactly one of the two keys present
validates successfully. -/
theorem c4_only_one_or_key_exclusivity :
    (schemaValidate false
        (.dictS [(.plainM, .orS 0 true [.lit (.str "x"), .lit (.str "y")], .typeS .strT)])
        (.dict [(.str "x", .str "value"), (.str "y", .str "other_value")])).1
      = Except.error ⟨.onlyOneAllowed,
          [some "There are multiple keys present from the Or('x', 'y') condition"],
          [Option.none]⟩
    ∧ getCount (schemaValidate false
        (.dictS [(.plainM, .orS 0 true [.lit (.str "x"), .lit (.str "y")], .typeS .strT)])
        (.dict [(.str "x", .str "value"), (.str "y", .str "other_value")])).2 0 = 0
    ∧ (schemaValidate false
        (.dictS [(.plainM, .orS 0 true [.lit (.str "x"), .lit (.str "y")], .typeS .strT)])
        (.dict [(.str "x", .str "value")])).1
      = Except.ok (.dict [(.str "x", .str "value")])
    ∧ (schemaValidate false
        (.dictS [(.plainM, .orS 0 true [.lit (.str "x"), .lit (.str "y")], .typeS .strT)])
        (.dict [(.str "y", .str "other_value")])).1
      = Except.ok (.dict [(.str "y", .str "other_value")]) :=
  ⟨rfl, rfl, rfl, rfl⟩

/-- Claim C8 (confirmed): for the type schema `int`, validating `True` or
`False` fails with the type-mismatch error even though `isinstance(True, int)`
holds in Python, while non-boolean integers pass through unchanged — at any
fuel, state and `ignore_extra_keys` flag. -/
theorem c8_bool_never_satisfies_int :
    (∀ (fuel : Nat) (i : Bool) (st : Counters),
      validateF (fuel + 1) i (.typeS .intT) (.bool true) st
        = (Except.error ⟨.unexpectedType, [some "True should be instance of 'int'"],
            [Option.none]⟩, st))
    ∧ (∀ (fuel : Nat) (i : Bool) (st : Counters),
      validateF (fuel + 1) i (.typeS .intT) (.bool false) st
        = (Except.error ⟨.unexpectedType, [some "False should be instance of 'int'"],
            [Option.none]⟩, st))
    ∧ (∀ (fuel : Nat) (i : Bool) (st : Counters) (n : Int),
      validateF (fuel + 1) i (.typeS .intT) (.int n) st = (Except.ok (.int n), st)) :=
  ⟨fun _ _ _ => rfl, fun _ _ _ => rfl, fun _ _ _ _ => rfl⟩

/-- Claim C10 (confirmed): an `Optional` dictionary key with a default built
from the non-string comparable `1` stores `str(1) = "1"` as its key identity
(`Optional.__init__`), so validating `{}` injects the string key:
`Schema({Optional(1, default=5): int}).validate({})` returns `{"1": 5}`,
not `{1: 5}`. -/
theorem c10_optional_default_key_is_str :
    (schemaValidate false (.dictS [(.optM (some (.int 5)), .lit (.int 1), .typeS .intT)])
        (.dict [])).1
      = Except.ok (.dict [(.str "1", .int 5)])
    ∧ pyStr (.int 1) = "1"
    ∧ (schemaValidate false (.dictS [(.optM (some (.int 5)), .lit (.int 1), .typeS .intT)])
        (.dict [])).1
      ≠ Except.ok (.dict [(.int 1, .int 5)]) := by
  refine ⟨rfl, rfl, ?_⟩
  intro h
  simp only [show (schemaValidate false
      (.dictS [(.optM (some (.int 5)), .lit (.int 1), .typeS .intT)]) (.dict [])).1
      = Except.ok (.dict [(.str "1", .int 5)]) from rfl,
    Except.ok.injEq, PyVal.dict.injEq, List.cons.injEq, Prod.mk.injEq] at h
  exact PyVal.noConfusion h.1.1

/-- Claim C6 (confirmed): dictionary validation enforces required and extra
keys.  Concretely `Schema({"key": 5}).validate({})` fails with
`Missing key: 'key'` and `Schema({"key": 5}).validate({"key": 5, "bad": 5})`
fails with `Wrong key 'bad' in {'key': 5, 'bad': 5}`; in general, whenever
some required (non-`Optional`, non-`Hook`) schema key is uncovered the
post-loop phase fails with the missing-keys error listing them, and
otherwise, without `ignore_extra_keys`, a result with a different number of
entries than the input fails with the wrong-keys error listing the unmatched
data keys. -/
theorem c6_dict_required_and_extra_keys :
    (schemaValidate false (.dictS [(.plainM, .lit (.str "key"), .lit (.int 5))])
        (.dict [])).1
      = Except.error ⟨.missingKey, [some "Missing key: 'key'"], [Option.none]⟩
    ∧ (schemaValidate false (.dictS [(.plainM, .lit (.str "key"), .lit (.int 5))])
        (.dict [(.str "key", .int 5), (.str "bad", .int 5)])).1
      = Except.error ⟨.wrongKey,
          [some "Wrong key 'bad' in \x7b'key': 5, 'bad': 5\x7d"], [Option.none]⟩
    ∧ (∀ (i : Bool) (dataFull : PyVal) (xs : List (PyVal × PyVal))
        (sortedE : List (KeyMark × SExpr × SExpr)) (new : List (PyVal × PyVal))
        (cov : List Nat) (m : Nat × (KeyMark × SExpr × SExpr))
        (ms : List (Nat × (KeyMark × SExpr × SExpr))),
        missingOf sortedE cov = m :: ms →
        finishDict i dataFull xs sortedE new cov
          = Except.error ⟨.missingKey, [some (missingMsg (m :: ms))], [Option.none]⟩)
    ∧ (∀ (dataFull : PyVal) (xs : List (PyVal × PyVal))
        (sortedE : List (KeyMark × SExpr × SExpr)) (new : List (PyVal × PyVal))
        (cov : List Nat),
        missingOf sortedE cov = [] →
        new.length ≠ xs.length →
        finishDict false dataFull xs sortedE new cov
          = Except.error ⟨.wrongKey, [some (wrongMsg dataFull xs new)], [Option.none]⟩) := by
  refine ⟨rfl, rfl, ?_, ?_⟩
  · intro i dataFull xs sortedE new cov m ms hm
    simp only [finishDict, hm]
  · intro dataFull xs sortedE new cov hm0 hlen
    have hb : (new.length == xs.length) = false := beq_eq_false_iff_ne.mpr hlen
    simp only [finishDict, hm0, hb, Bool.not_false, Bool.not_true, Bool.and_true,
      Bool.and_false, if_true, Bool.true_and]

/-- Witness for C6's general conjuncts, instantiated concretely: the sorted
key list `[{"key": 5}]` with empty coverage yields the missing-key error, and
an empty schema against one data item yields the wrong-key error. -/
theorem c6_dict_required_and_extra_keys_witness :
    finishDict false (.dict []) [] [(.plainM, .lit (.str "key"), .lit (.int 5))] [] []
      = Except.error ⟨.missingKey,
          [some (missingMsg [(0, (.plainM, .lit (.str "key"), .lit (.int 5)))])],
          [Option.none]⟩
    ∧ finishDict false (.dict [(.str "bad", .int 5)]) [(.str "bad", .int 5)] [] [] []
      = Except.error ⟨.wrongKey,
          [some (wrongMsg (.dict [(.str "bad", .int 5)]) [(.str "bad", .int 5)] [])],
          [Option.none]⟩ :=
  ⟨c6_dict_required_and_extra_keys.2.2.1 false (.dict []) []
      [(.plainM, .lit (.str "key"), .lit (.int 5))] [] []
      (0, (.plainM, .lit (.str "key"), .lit (.int 5))) [] rfl,
   c6_dict_required_and_extra_keys.2.2.2 (.dict [(.str "bad", .int 5)])
      [(.str "bad", .int 5)] [] [] [] rfl (by decide)⟩

/-- Claim C7 (confirmed): `Optional`-marked keys sort after keys of base
priority no larger (so specific keys win ties), and an uncovered `Optional`
key with a default injects `str(key) -> default` in the post-loop phase; in
particular `Schema({Optional("a", default=1): 11, str: 22}).validate({"b": 22})`
returns a dict Python-equal to `{"a": 1, "b": 22}`, the generic str-typed key
binding `"b"` and never supplying `"a"`. -/
theorem c7_optional_priority_and_default_fill :
    (schemaValidate false
        (.dictS [(.optM (some (.int 1)), .lit (.str "a"), .lit (.int 11)),
                 (.plainM, .typeS .strT, .lit (.int 22))])
        (.dict [(.str "b", .int 22)])).1
      = Except.ok (.dict [(.str "b", .int 22), (.str "a", .int 1)])
    ∧ pyEq (.dict [(.str "b", .int 22), (.str "a", .int 1)])
        (.dict [(.str "a", .int 1), (.str "b", .int 22)]) = true
    ∧ (∀ (dflt : Option PyVal) (ks vs ks2 vs2 : SExpr),
        priority ks2 ≤ priority ks →
        dictKeyPriority (.plainM, ks2, vs2) < dictKeyPriority (.optM dflt, ks, vs))
    ∧ (∀ (idx : Nat) (dv v : PyVal) (vs : SExpr)
        (rest : List (Nat × (KeyMark × SExpr × SExpr))) (cov : List Nat)
        (new : List (PyVal × PyVal)),
        cov.contains idx = false →
        applyDefaults ((idx, (.optM (some dv), .lit v, vs)) :: rest) cov new
          = applyDefaults rest cov (dictInsert new (.str (pyStr v)) dv)) := by
  refine ⟨rfl, rfl, ?_, ?_⟩
  · intro dflt ks vs ks2 vs2 h
    simp only [dictKeyPriority]
    omega
  · intro idx dv v vs rest cov new h
    simp only [applyDefaults, h, Bool.false_eq_true, if_false]

/-- Witness for C7's general conjuncts: a tie between a plain literal key and
a defaulted `Optional` literal key sorts the plain key first, and an
uncovered defaulted `Optional` injects its default under the stringified
key. -/
theorem c7_optional_priority_and_default_fill_witness :
    dictKeyPriority (.plainM, .lit (.str "a"), .lit (.int 11))
      < dictKeyPriority (.optM (some (.int 1)), .lit (.str "a"), .lit (.int 11))
    ∧ applyDefaults [(0, (.optM (some (.int 1)), .lit (.str "a"), .lit (.int 11)))] [1] []
      = applyDefaults [] [1] (dictInsert [] (.str "a") (.int 1)) :=
  ⟨c7_optional_priority_and_default_fill.2.2.1 (some (.int 1))
      (.lit (.str "a")) (.lit (.int 11)) (.lit (.str "a")) (.lit (.int 11)) (Nat.le_refl 0),
   c7_optional_priority_and_default_fill.2.2.2 0 (.int 1) (.str "a")
      (.lit (.int 11)) [] [1] [] rfl⟩

/-- Claim C1 counterexample: `Or("a", "b").validate("c")` fails with an error
whose `autos` holds the summary followed by the chains of BOTH failed
alternatives — not, as the claim states, the summary followed by only the
last alternative's chain. -/
theorem c1_or_last_only_counterexample :
    orValidate 0 false [.lit (.str "a"), .lit (.str "b")] (.str "c") []
      = (Except.error ⟨.base,
          [some "Or('a', 'b') did not validate 'c'",
           some "'a' does not match 'c'",
           some "'b' does not match 'c'"],
          [Option.none, Option.none, Option.none]⟩, [])
    ∧ ([some "Or('a', 'b') did not validate 'c'",
        some "'a' does not match 'c'",
        some "'b' does not match 'c'"] : List (Option String))
      ≠ [some "Or('a', 'b') did not validate 'c'", some "'b' does not match 'c'"] :=
  ⟨rfl, by decide⟩

theorem orRun_allFail
    (valF : SExpr → PyVal → Counters → Except SchemaError PyVal × Counters)
    (rep : String) (id : Nat) (oo : Bool) (d : PyVal) :
    ∀ (args : List SExpr) (autos errors : List (Option String)) (st : Counters)
      (as es : List (Option String)) (st' : Counters),
      allFail valF args d st = some (as, es, st') →
      orRun valF rep id oo d args autos errors st
        = (Except.error ⟨.base,
            some (rep ++ " did not validate " ++ pyRepr d) :: (autos ++ as),
            Option.none :: (errors ++ es)⟩, st') := by
  intro args
  induction args with
  | nil =>
      intro autos errors st as es st' h
      simp only [allFail, Option.some.injEq, Prod.mk.injEq] at h
      obtain ⟨has, hes, hst⟩ := h
      simp [orRun, ← has, ← hes, ← hst]
  | cons a rest ih =>
      intro autos errors st as es st' h
      simp only [allFail] at h
      rcases hv : valF a d st with ⟨r1, st1⟩
      cases r1 with
      | ok v =>
          simp only [hv] at h
          exact Option.noConfusion h
      | error e =>
          simp only [hv] at h
          rcases hA : allFail valF rest d st1 with _ | ⟨as2, es2, stA⟩
          · simp only [hA] at h
            exact Option.noConfusion h
          · simp only [hA, Option.some.injEq, Prod.mk.injEq] at h
            obtain ⟨has, hes, hst⟩ := h
            simp only [orRun, hv]
            have := ih (autos ++ e.autos) (errors ++ e.errors) st1 as2 es2 stA hA
            rw [this, ← has, ← hes, ← hst]
            simp [List.append_assoc]

/-- Claim C1 (corrected): when every alternative of an `Or` fails,
`Or.validate` raises a new error whose `autos` begins with the summary line
and is followed by the concatenation of ALL attempted alternatives' error
chains in order (the source appends each failure's `autos`/`errors`; it does
not discard the earlier alternatives' detail and keep only the last). -/
theorem c1_or_error_collects_all_failures :
    ∀ (id : Nat) (oo : Bool) (args : List SExpr) (d : PyVal) (st : Counters)
      (as es : List (Option String)) (st' : Counters),
      allFail (fun s2 d2 st2 => validateF (sSizeList args + 1) false s2 d2 st2)
          args d st = some (as, es, st') →
      orValidate id oo args d st
        = (Except.error ⟨.base,
            some (sExprRepr (.orS id oo args) ++ " did not validate " ++ pyRepr d) :: as,
            Option.none :: es⟩, st') := by
  intro id oo args d st as es st' h
  exact orRun_allFail _ _ id oo d args [] [] st as es st' h

/-- Witness for C1's corrected theorem at `Or("a", "b").validate("c")`. -/
theorem c1_or_error_collects_all_failures_witness :
    allFail (fun s2 d2 st2 =>
        validateF (sSizeList [SExpr.lit (.str "a"), SExpr.lit (.str "b")] + 1)
          false s2 d2 st2)
      [SExpr.lit (.str "a"), SExpr.lit (.str "b")] (.str "c") []
      = some ([some "'a' does not match 'c'", some "'b' does not match 'c'"],
          [Option.none, Option.none], [])
    ∧ orValidate 0 false [.lit (.str "a"), .lit (.str "b")] (.str "c") []
      = (Except.error ⟨.base,
          [some "Or('a', 'b') did not validate 'c'",
           some "'a' does not match 'c'",
           some "'b' does not match 'c'"],
          [Option.none, Option.none, Option.none]⟩, []) :=
  ⟨rfl, c1_or_error_collects_all_failures 0 false
      [.lit (.str "a"), .lit (.str "b")] (.str "c") []
      [some "'a' does not match 'c'", some "'b' does not match 'c'"]
      [Option.none, Option.none] [] rfl⟩

/-- Claim C9 (confirmed): `Or` is alternative, not chained.  For any
sub-schemas `f`, `g` and input `x`, `Or(f, g).validate(x)` returns `f`'s
result when `f` succeeds, and otherwise applies `g` to the ORIGINAL `x`
(threading only the mutable counter state) — never to `f`'s failed output;
when both fail the raised error is built from both failures on the same
original `x`. -/
theorem c9_or_is_alternative
    (valF : SExpr → PyVal → Counters → Except SchemaError PyVal × Counters)
    (rep : String) (id : Nat) (f g : SExpr) (x : PyVal) (st : Counters) :
    orRun valF rep id false x [f, g] [] [] st =
      match valF f x st with
      | (Except.ok v, st1) => (Except.ok v, incrCount st1 id)
      | (Except.error e1, st1) =>
          match valF g x st1 with
          | (Except.ok v, st2) => (Except.ok v, incrCount st2 id)
          | (Except.error e2, st2) =>
              (Except.error ⟨.base,
                some (rep ++ " did not validate " ++ pyRepr x)
                  :: (e1.autos ++ e2.autos),
                Option.none :: (e1.errors ++ e2.errors)⟩, st2) := by
  rcases h1 : valF f x st with ⟨r1, st1⟩
  cases r1 with
  | ok v => simp [orRun, h1]
  | error e1 =>
      rcases h2 : valF g x st1 with ⟨r2, st2⟩
      cases r2 with
      | ok v => simp [orRun, h1, h2]
      | error e2 => simp [orRun, h1, h2]

/-- Claim C2 (confirmed): during dictionary validation, once a schema key's
key schema has accepted a data key, a failure of the paired value schema is
fatal: the error is rewrapped with the `Key '<k>' error:` frame prepended to
`autos` (and a `None` to `errors`) and the scan stops — the remaining
candidate schema keys (`rest`) and the remaining data items (`items`) are
never consulted, as the conclusion is independent of both. -/
theorem c2_matched_key_value_failure_fatal
    (valF : Bool → SExpr → PyVal → Counters → Except SchemaError PyVal × Counters)
    (i : Bool) (dataFull key value : PyVal) (idx : Nat) (m : KeyMark)
    (ks vs : SExpr) (rest : List (KeyMark × SExpr × SExpr))
    (st st1 st2 : Counters) (nkey : PyVal) (x : SchemaError)
    (hm : m ≠ KeyMark.forbM)
    (hk : valF false ks key st = (Except.ok nkey, st1))
    (hv : valF i vs value st1 = (Except.error x, st2)) :
    tryKeys valF i dataFull key value idx ((m, ks, vs) :: rest) st
      = (TryOut.fatal ⟨.base, some ("Key '" ++ pyStr nkey ++ "' error:") :: x.autos,
          Option.none :: x.errors⟩, st2)
    ∧ ∀ (items new : List (PyVal × PyVal)) (cov : List Nat),
        processItems valF i dataFull ((m, ks, vs) :: rest) ((key, value) :: items)
            new cov st
          = (Except.error ⟨.base, some ("Key '" ++ pyStr nkey ++ "' error:") :: x.autos,
              Option.none :: x.errors⟩, st2) := by
  have htk : ∀ j : Nat,
      tryKeys valF i dataFull key value j ((m, ks, vs) :: rest) st
        = (TryOut.fatal ⟨.base, some ("Key '" ++ pyStr nkey ++ "' error:") :: x.autos,
            Option.none :: x.errors⟩, st2) := by
    intro j
    cases m with
    | forbM => exact absurd rfl hm
    | plainM => simp only [tryKeys, hk, hv]
    | optM dflt => simp only [tryKeys, hk, hv]
  refine ⟨htk idx, ?_⟩
  intro items new cov
  simp only [processItems, htk 0]

/-- Witness for C2 at a concrete scenario: key schema `"a"` accepts the data
key, value schema `5` rejects the value `"x"`, and the scan aborts with the
wrapped error even though another (matching) candidate key follows. -/
theorem c2_matched_key_value_failure_fatal_witness :
    tryKeys (fun i2 s2 d2 st2 => validateF 1 i2 s2 d2 st2) false (.dict [])
        (.str "a") (.str "x") 0
        [(.plainM, .lit (.str "a"), .lit (.int 5)),
         (.plainM, .typeS .strT, .typeS .strT)] []
      = (TryOut.fatal ⟨.base, [some "Key 'a' error:", some "5 does not match 'x'"],
          [Option.none, Option.none]⟩, [])
    ∧ processItems (fun i2 s2 d2 st2 => validateF 1 i2 s2 d2 st2) false (.dict [])
        [(.plainM, .lit (.str "a"), .lit (.int 5)),
         (.plainM, .typeS .strT, .typeS .strT)]
        [((.str "a"), (.str "x")), ((.str "z"), (.str "w"))] [] [] []
      = (Except.error ⟨.base, [some "Key 'a' error:", some "5 does not match 'x'"],
          [Option.none, Option.none]⟩, []) := by
  have h := c2_matched_key_value_failure_fatal
    (fun i2 s2 d2 st2 => validateF 1 i2 s2 d2 st2) false (.dict [])
    (.str "a") (.str "x") 0 .plainM (.lit (.str "a")) (.lit (.int 5))
    [(.plainM, .typeS .strT, .typeS .strT)] [] [] []
    (.str "a") ⟨.base, [some "5 does not match 'x'"], [Option.none]⟩
    (fun hc => KeyMark.noConfusion hc) rfl rfl
  exact ⟨h.1, h.2 [((.str "z"), (.str "w"))] [] []⟩

/-- Claim C5 (confirmed): for every dictionary validation that reaches the
key-matching pass (the data is a dict), each registered reset obligation —
every top-level key exposing reset behaviour, i.e. an `Or` key or an
`Optional`-wrapped `Or` key — leaves its `match_count` at `0` in the final
counter state, whether the pass succeeded, failed on an item, or failed in a
reset itself; consequently each such counter is `0` at the start of any
subsequent top-level dictionary validation. -/
theorem c5_dict_resets_or_match_counts
    (n : Nat) (i : Bool) (entries : List (KeyMark × SExpr × SExpr))
    (xs : List (PyVal × PyVal)) (st : Counters) (id2 : Nat) (oo : Bool)
    (rep : String)
    (hmem : (id2, oo, rep) ∈ (sortByLe entryLe entries).filterMap keyResetObl) :
    getCount (validateF (n + 1) i (.dictS entries) (.dict xs) st).2 id2 = 0 := by
  simp only [validateF]
  rcases hP : processItems (fun i2 s2 d2 st2 => validateF n i2 s2 d2 st2) i
      (.dict xs) (sortByLe entryLe entries) (sortByLe itemLe xs) [] [] st
    with ⟨bodyRes, st1⟩
  simp only [hP]
  rcases hR : runResets ((sortByLe entryLe entries).filterMap keyResetObl).reverse st1
    with ⟨eR, st2⟩
  simp only [hR]
  have hz : getCount
      (runResets ((sortByLe entryLe entries).filterMap keyResetObl).reverse st1).2 id2
      = 0 :=
    runResets_zero id2 _ st1 ⟨(id2, oo, rep), List.mem_reverse.mpr hmem, rfl⟩
  rw [hR] at hz
  cases eR with
  | some e2 => exact hz
  | none =>
      cases bodyRes with
      | error e => exact hz
      | ok p =>
          obtain ⟨new, cov⟩ := p
          exact hz

/-- Witness for C5: an `only_one` `Or` key over a two-key dict, starting from
a polluted counter state; the validation fails (with the only-one error) and
the counter is nevertheless `0` afterwards. -/
theorem c5_dict_resets_or_match_counts_witness :
    (0, true, "Or('x', 'y')")
      ∈ (sortByLe entryLe
          [(KeyMark.plainM, SExpr.orS 0 true [.lit (.str "x"), .lit (.str "y")],
            SExpr.typeS .strT)]).filterMap keyResetObl
    ∧ getCount (validateF (5 + 1) false
        (.dictS [(.plainM, .orS 0 true [.lit (.str "x"), .lit (.str "y")],
          .typeS .strT)])
        (.dict [(.str "x", .str "v"), (.str "y", .str "w")]) [(0, 7)]).2 0 = 0 :=
  ⟨by decide,
   c5_dict_resets_or_match_counts 5 false
      [(.plainM, .orS 0 true [.lit (.str "x"), .lit (.str "y")], .typeS .strT)]
      [(.str "x", .str "v"), (.str "y", .str "w")] [(0, 7)] 0 true "Or('x', 'y')"
      (by decide)⟩
